import Mathlib

/-!
Verification of the gcp-mcp control-plane server's session, permission-gate
and dispatch logic, as a shallow embedding of the TypeScript source.

The embedding follows the latest revision of the server (the index file that
verifies permissions before switching the active project, uses
`ensureProject` for project resolution, and dispatches the thirteen
catalogued tools), together with the IAM checker (`iam-checker.ts`), the
health scorer (`tools/health.ts` and its MQL-based revision), the cost
insight generator and the optimization recommender (`tools/cost.ts`).

External GCP API calls (Cloud Monitoring, BigQuery, Cloud Build, Resource
Manager, ...) are the capability-provider seam: each is modelled as an
oracle field of `Env` returning `Except String` of a result, and every
invocation of an oracle is recorded in an explicit trace of `Call` events,
so that properties of the form "the provider is never invoked" and
"verification runs before the write" are statable.  `JSON.stringify` of a
success payload is abstracted by explicit string rendering helpers; the
exact success text is not load-bearing for any property proved here, while
every error text is taken verbatim from the source.
-/

namespace GcpMcp

/-- The identity derived from ambient credentials (iam-checker.ts
`getIdentity`). -/
structure Identity where
  email : String
  projectId : String
  authMethod : String
deriving Repr, DecidableEq

/-- The per-capability booleans of a permission report
(iam-checker.ts `PermissionReport.capabilities`). -/
structure Capabilities where
  health : Bool
  cost : Bool
  deployment : Bool
  billing : Bool
deriving Repr, DecidableEq

/-- iam-checker.ts `PermissionReport`. -/
structure PermissionReport where
  identity : String
  projectId : String
  capabilities : Capabilities
  missingPermissions : List String
deriving Repr, DecidableEq

/-- iam-checker.ts `REQUIRED_PERMISSIONS.health`. -/
def REQUIRED_health : List String := ["monitoring.timeSeries.list"]

/-- iam-checker.ts `REQUIRED_PERMISSIONS.cost`. -/
def REQUIRED_cost : List String := ["bigquery.jobs.create", "bigquery.tables.list"]

/-- iam-checker.ts `REQUIRED_PERMISSIONS.deployment`. -/
def REQUIRED_deployment : List String := ["cloudbuild.builds.list"]

/-- iam-checker.ts `REQUIRED_PERMISSIONS.billing`. -/
def REQUIRED_billing : List String := ["resourcemanager.projects.get"]

/-- `Object.values(this.REQUIRED_PERMISSIONS).flat()`: all required
permissions in the declaration order of the groups. -/
def allPermissions : List String :=
  REQUIRED_health ++ REQUIRED_cost ++ REQUIRED_deployment ++ REQUIRED_billing

/-- Health metrics (tools/health.ts `HealthMetrics`).  The TypeScript
numbers are modelled as rationals. -/
structure HealthMetrics where
  cpuUsage : ℚ
  errorRate : ℚ
  latencyP95 : ℚ
  podHealth : ℚ
deriving Repr, DecidableEq

/-- JavaScript `Math.round` on a (finite, real) value. -/
def jsRound (q : ℚ) : ℤ := ⌊q + 1/2⌋

/-- tools/health.ts `computeHealthScore` (the revision whose error-rate
deduction fires above 1 and deducts `errorRate * 10`). -/
def computeHealthScore (m : HealthMetrics) : ℤ :=
  let s0 : ℚ := 100
  let s1 := if m.cpuUsage > 80 then s0 - (m.cpuUsage - 80) * (1/2) else s0
  let s2 := if m.errorRate > 1 then s1 - m.errorRate * 10 else s1
  let s3 := if m.latencyP95 > 500 then s2 - (m.latencyP95 - 500) / 20 else s2
  let s4 := if m.podHealth < 100 then s3 - (100 - m.podHealth) * 2 else s3
  max 0 (min 100 (jsRound s4))

/-- The MQL-based revision of `computeHealthScore` (error-rate threshold
0.01, deduction `(errorRate * 100) * 10`); clamping is identical. -/
def computeHealthScoreV2 (m : HealthMetrics) : ℤ :=
  let s0 : ℚ := 100
  let s1 := if m.cpuUsage > 80 then s0 - (m.cpuUsage - 80) * (1/2) else s0
  let s2 := if m.errorRate > 1/100 then s1 - m.errorRate * 100 * 10 else s1
  let s3 := if m.latencyP95 > 500 then s2 - (m.latencyP95 - 500) / 20 else s2
  let s4 := if m.podHealth < 100 then s3 - (100 - m.podHealth) * 2 else s3
  max 0 (min 100 (jsRound s4))

/-- tools/cost.ts `CostBreakdown`. -/
structure CostBreakdown where
  project : String
  monthTotal : ℤ
  topCostService : String
  percentageChange : String
  anomalyDetected : Bool
deriving Repr, DecidableEq

/-- tools/cost.ts `generateInsight`. -/
def generateInsight (data : CostBreakdown) : String :=
  if data.anomalyDetected then
    "⚠️ ANOMALY DETECTED: Cost increased by " ++ data.percentageChange ++
      ". Review " ++ data.topCostService ++ " usage in project " ++ data.project ++ "."
  else
    "Monthly spend for " ++ data.project ++ " is stable at $" ++ toString data.monthTotal ++
      ". " ++ data.topCostService ++ " is the primary driver."

/-- The `cost` of a recommendation's `primaryImpact?.costProjection?` (a
`Money` value: optional units, nanos and currency code). -/
structure CostProjection where
  units : Option ℤ
  nanos : Option ℤ
  currencyCode : Option String
deriving Repr, DecidableEq

/-- A raw recommendation as the Recommender API returns it (the fields the
mapping in tools/cost.ts `getRecommendations` reads). -/
structure RawRecommendation where
  description : String
  priority : String
  cost : Option CostProjection
  state : String
deriving Repr, DecidableEq

/-- A mapped recommendation (the object pushed into `results`). -/
structure Recommendation where
  recommenderId : String
  description : String
  priority : String
  savings : ℚ
  currency : Option String
  state : String
deriving Repr, DecidableEq

/-- tools/cost.ts `RECOMMENDERS`. -/
def RECOMMENDERS : List String :=
  ["google.compute.instance.IdleResourceRecommendation",
   "google.compute.instance.MachineTypeRecommendation",
   "google.cloud.billing.CostInsight",
   "google.resourcemanager.project.ServiceLimitRecommendation"]

/-- The per-recommendation mapping inside `getRecommendations`:
`savings = Number(cost.units || 0) + (cost.nanos || 0) / 1e9` when a cost
projection is present, else 0; `currency = cost?.currencyCode`. -/
def mapRec (recommenderId : String) (rec : RawRecommendation) : Recommendation :=
  { recommenderId := recommenderId
    description := rec.description
    priority := rec.priority
    savings :=
      match rec.cost with
      | none => 0
      | some c => (c.units.getD 0 : ℚ) + (c.nanos.getD 0 : ℚ) / 1000000000
    currency := rec.cost.bind (fun c => c.currencyCode)
    state := rec.state }

/-- Cloud Build metadata of a created build (`operation.metadata`, the
optional fields `triggerDeployment` reads). -/
structure BuildMeta where
  id : Option String
  status : Option String
  logUrl : Option String
deriving Repr, DecidableEq

/-- tools/deploy.ts `DeploymentResult`. -/
structure DeploymentResult where
  buildId : String
  status : String
  environment : String
  logUrl : Option String
deriving Repr, DecidableEq

/-- tools/deploy.ts `CIStatus`. -/
structure CIStatus where
  repo : String
  lastStatus : String
  durationSeconds : ℤ
  lastCommit : String
deriving Repr, DecidableEq

/-- The outcome of `ArchitectureService.generateDiagram`: either the
"nothing found" sentence or a diagram with its explanation. -/
inductive DiagramOut where
  | message (text : String)
  | diagram (mermaid explanation : String)
deriving Repr, DecidableEq

/-- One recorded interaction of the dispatcher with the outside world: a
capability-provider (GCP API) invocation, or the write of the session's
active-project field. -/
inductive Call where
  | listProjects
  | getIdentity
  | testIamPermissions (project : String)
  | fetchMetrics (service project : String)
  | billingStatus (project : String)
  | fetchCostData (project : String)
  | createBuild (service project : String)
  | listBuilds (repo project : String)
  | fetchLogs (project : String)
  | gceStart (project zone instanceName : String)
  | gceStop (project zone instanceName : String)
  | runRestart (project location service : String)
  | listFindings (project severity : String)
  | listRecommendations (project location recommender : String)
  | quotaQuery (project : String)
  | diagramDiscovery (project : String)
  | writeActiveProject (projectId : String)
deriving Repr, DecidableEq

/-- The capability-provider oracles: what each external GCP call would
return.  Pure data, so one `Env` fixes the behaviour of the outside world
for a whole tool call. -/
structure Env where
  listProjectsR : Except String String
  getIdentityR : Except String Identity
  testIamPermissionsR : String → Except String (List String)
  fetchMetricsR : String → String → Except String HealthMetrics
  billingStatusR : String → Except String String
  fetchCostDataR : String → Except String CostBreakdown
  createBuildR : String → String → Except String BuildMeta
  ciStatusR : String → String → Except String CIStatus
  fetchLogsR : String → Except String (List String)
  gceR : String → String → String → String → Except String String
  runRestartR : String → String → String → Except String String
  findingsR : String → String → Except String (List String)
  listRecommendationsR : String → String → String → Except String (List RawRecommendation)
  quotaR : String → Except String String
  diagramR : String → Except String DiagramOut

/-- iam-checker.ts `verifyPermissions`: derive the identity, fall back to
its project when the argument is empty, require a non-empty target, issue
one batched `testIamPermissions` call, then partition the granted set into
per-capability booleans (AND over each group) and the ordered missing list.
Returns the report (or the raised error message) with the trace of external
calls made. -/
def verifyPermissions (env : Env) (projectId : String) :
    Except String PermissionReport × List Call :=
  match env.getIdentityR with
  | .error e => (.error e, [Call.getIdentity])
  | .ok identity =>
    let targetProject := if projectId = "" then identity.projectId else projectId
    if targetProject = "" then
      (.error "Project ID is required for permission check.", [Call.getIdentity])
    else
      match env.testIamPermissionsR targetProject with
      | .error e =>
        (.error ("GCP Resource Manager Error: " ++ e),
         [Call.getIdentity, Call.testIamPermissions targetProject])
      | .ok granted =>
        (.ok { identity := identity.email
               projectId := targetProject
               capabilities :=
                 { health := REQUIRED_health.all (fun p => granted.contains p)
                   cost := REQUIRED_cost.all (fun p => granted.contains p)
                   deployment := REQUIRED_deployment.all (fun p => granted.contains p)
                   billing := REQUIRED_billing.all (fun p => granted.contains p) }
               missingPermissions := allPermissions.filter (fun p => !granted.contains p) },
         [Call.getIdentity, Call.testIamPermissions targetProject])

/-- index.ts `ensureProject`: `projectArg || activeProjectId`, failing with
the onboarding message when neither is a non-empty string. -/
def ensureProject (projectArg : Option String) (activeProjectId : String) :
    Except String String :=
  let target :=
    match projectArg with
    | some p => if p = "" then activeProjectId else p
    | none => activeProjectId
  if target = "" then
    .error "No project selected. Please run 'list_projects' and then 'set_active_project' to choose a project to work with."
  else
    .ok target

/-- The remediation message `ensureProject` raises. -/
def noProjectMsg : String :=
  "No project selected. Please run 'list_projects' and then 'set_active_project' to choose a project to work with."

/-- tools/deploy.ts `triggerDeployment`: the non-bypassable safety check on
`approval`, then the Cloud Build `createBuild` call with its defaults and
error wrapping. -/
def triggerDeployment (env : Env) (serviceName : String) (approval : Bool)
    (projectId : String) : Except String DeploymentResult × List Call :=
  if approval = false then
    (.error "Safety check: Production deployment requires explicit approval flag.", [])
  else
    match env.createBuildR serviceName projectId with
    | .error e =>
      (.error ("GCP Cloud Build Error: " ++ e), [Call.createBuild serviceName projectId])
    | .ok meta =>
      (.ok { buildId := meta.id.getD "unknown"
             status := meta.status.getD "QUEUED"
             environment := "production"
             logUrl := meta.logUrl },
       [Call.createBuild serviceName projectId])

/-- tools/cost.ts `getRecommendations`' loop over `RECOMMENDERS`: a failing
recommender is skipped (`catch` around each iteration), a succeeding one
appends its mapped recommendations; every recommender is consulted. -/
def recsLoop (env : Env) (projectId location : String) :
    List String → List Recommendation × List Call
  | [] => ([], [])
  | recommenderId :: rest =>
    let step : List Recommendation :=
      match env.listRecommendationsR projectId location recommenderId with
      | .error _ => []
      | .ok recs =>
        if recs.length > 0 then recs.map (mapRec recommenderId) else []
    let tail := recsLoop env projectId location rest
    (step ++ tail.1, Call.listRecommendations projectId location recommenderId :: tail.2)

/-- tools/cost.ts `OptimizationService.getRecommendations`. -/
def getRecommendations (env : Env) (projectId location : String) :
    List Recommendation × List Call :=
  recsLoop env projectId location RECOMMENDERS

/-! ## The tool dispatcher -/

/-- The raw argument payload of a tool call, before schema validation: each
field the declared schemas mention, present or absent.  (A field of the
wrong JSON type is treated as absent; no claim here concerns wrong-typed
fields.) -/
structure Args where
  service : Option String := none
  project : Option String := none
  approval : Option Bool := none
  repo : Option String := none
  projectId : Option String := none
  resourceType : Option String := none
  resourceName : Option String := none
  action : Option String := none
  location : Option String := none
  query : Option String := none
  limit : Option ℤ := none
  severity : Option String := none
deriving Repr, DecidableEq

/-- The stand-in message of a failed schema validation (zod raises a
structured issue list; its exact text is not load-bearing here). -/
def invalidArgsMsg : String := "Invalid arguments"

/-- Whether the first character list is a prefix of the second. -/
def charsHavePre : List Char → List Char → Bool
  | [], _ => true
  | _ :: _, [] => false
  | c :: cs, d :: ds => c = d && charsHavePre cs ds

/-- Whether `needle` occurs anywhere in `hay` (character lists). -/
def charsInclude (needle : List Char) : List Char → Bool
  | [] => charsHavePre needle []
  | d :: ds => charsHavePre needle (d :: ds) || charsInclude needle ds

/-- JavaScript `hay.includes(needle)`. -/
def strIncludes (hay needle : String) : Bool :=
  charsInclude needle.data hay.data

/-- The substring the dispatcher's catch sniffs for to recognise a missing
ambient credential. -/
def credsSubstring : String := "Could not load the default credentials"

/-- The fixed re-authentication instruction the dispatcher returns when the
credential substring is recognised. -/
def authFailText : String :=
  "Error: GCP Authentication failed. Please run 'gcloud auth application-default login' on your machine to authenticate the MCP server."

/-- A tool response: the single text content item and the error flag. -/
structure ToolResponse where
  text : String
  isError : Bool
deriving Repr, DecidableEq

/-- The dispatcher's catch block: classify a raised message either as a
missing-credential failure (fixed remediation text) or wrap it verbatim as
`Error: {message}`; both are ordinary `isError` responses. -/
def catchHandler (msg : String) : ToolResponse :=
  if strIncludes msg credsSubstring then
    { text := authFailText, isError := true }
  else
    { text := "Error: " ++ msg, isError := true }

/-! Rendering helpers standing in for `JSON.stringify` of the success
payloads.  The exact shape of a success text is not relied on by any
property below; error texts are verbatim from the source. -/

/-- Success text of `list_projects` (`activeProjectId || "NONE"` plus the
serialized project list). -/
def renderProjects (active projects : String) : String :=
  "activeProjectId: " ++ (if active = "" then "NONE" else active) ++
    "; projects: " ++ projects

/-- Serialization of a `PermissionReport`. -/
def renderReport (r : PermissionReport) : String :=
  "identity: " ++ r.identity ++ "; projectId: " ++ r.projectId ++
    "; capabilities: " ++ toString r.capabilities.health ++ " " ++
    toString r.capabilities.cost ++ " " ++ toString r.capabilities.deployment ++
    " " ++ toString r.capabilities.billing ++
    "; missingPermissions: " ++ String.intercalate ", " r.missingPermissions

/-- Serialization of a `HealthMetrics` value. -/
def renderMetrics (m : HealthMetrics) : String :=
  "cpuUsage: " ++ toString m.cpuUsage ++ "; errorRate: " ++ toString m.errorRate ++
    "; latencyP95: " ++ toString m.latencyP95 ++ "; podHealth: " ++ toString m.podHealth

/-- Serialization of a `CostBreakdown`. -/
def renderCost (c : CostBreakdown) : String :=
  "project: " ++ c.project ++ "; monthTotal: " ++ toString c.monthTotal ++
    "; topCostService: " ++ c.topCostService ++ "; percentageChange: " ++
    c.percentageChange ++ "; anomalyDetected: " ++ toString c.anomalyDetected

/-- Serialization of a `DeploymentResult`. -/
def renderDeployment (r : DeploymentResult) : String :=
  "buildId: " ++ r.buildId ++ "; status: " ++ r.status ++ "; environment: " ++
    r.environment ++ "; logUrl: " ++ r.logUrl.getD "undefined"

/-- Serialization of a `CIStatus`. -/
def renderCI (c : CIStatus) : String :=
  "repo: " ++ c.repo ++ "; lastStatus: " ++ c.lastStatus ++ "; durationSeconds: " ++
    toString c.durationSeconds ++ "; lastCommit: " ++ c.lastCommit

/-- Serialization of a `Recommendation`. -/
def renderRecommendation (r : Recommendation) : String :=
  "recommenderId: " ++ r.recommenderId ++ "; description: " ++ r.description ++
    "; priority: " ++ r.priority ++ "; savings: " ++ toString r.savings ++
    "; currency: " ++ r.currency.getD "undefined" ++ "; state: " ++ r.state

/-- The `list_projects` case: enumerate projects with the identity provider
and report them next to the current active project. -/
def listProjectsTool (env : Env) (s : String) : Except String String × List Call :=
  match env.listProjectsR with
  | .error e => (.error e, [Call.listProjects])
  | .ok projects => (.ok (renderProjects s projects), [Call.listProjects])

/-- The `set_active_project` case: parse `projectId`, verify permissions
against it, and only then write the session's active-project field (the
write is recorded as a trace event after the verification events). -/
def setActiveProjectTool (env : Env) (s : String) (a : Args) :
    Except String String × String × List Call :=
  match a.projectId with
  | none => (.error invalidArgsMsg, s, [])
  | some pid =>
    match verifyPermissions env pid with
    | (.error e, tr) => (.error e, s, tr)
    | (.ok _, tr) =>
      (.ok ("Project context successfully set to: " ++ pid), pid,
       tr ++ [Call.writeActiveProject pid])

/-- The `test_iam_identity` case: tolerate a missing project by reporting
against `targetProject || ""`. -/
def testIamIdentityTool (env : Env) (s : String) (a : Args) :
    Except String String × List Call :=
  let targetProject :=
    match a.project with
    | some p => if p = "" then s else p
    | none => s
  match verifyPermissions env targetProject with
  | (.error e, tr) => (.error e, tr)
  | (.ok r, tr) => (.ok (renderReport r), tr)

/-- The `get_service_health` case. -/
def getServiceHealthTool (env : Env) (s : String) (a : Args) :
    Except String String × List Call :=
  match a.service with
  | none => (.error invalidArgsMsg, [])
  | some service =>
    match ensureProject a.project s with
    | .error e => (.error e, [])
    | .ok targetProject =>
      match env.fetchMetricsR service targetProject with
      | .error e => (.error e, [Call.fetchMetrics service targetProject])
      | .ok metrics =>
        (.ok ("service: " ++ service ++ "; project: " ++ targetProject ++
              "; score: " ++ toString (computeHealthScore metrics) ++ "; metrics: " ++
              renderMetrics metrics),
         [Call.fetchMetrics service targetProject])

/-- The `get_cloud_cost_breakdown` case. -/
def getCloudCostBreakdownTool (env : Env) (s : String) (a : Args) :
    Except String String × List Call :=
  match ensureProject a.project s with
  | .error e => (.error e, [])
  | .ok targetProject =>
    match env.billingStatusR targetProject with
    | .error e => (.error e, [Call.billingStatus targetProject])
    | .ok billing =>
      match env.fetchCostDataR targetProject with
      | .error e =>
        (.error e, [Call.billingStatus targetProject, Call.fetchCostData targetProject])
      | .ok costData =>
        (.ok ("project_id: " ++ targetProject ++ "; " ++ billing ++
              "; top_service_drilldown: " ++ renderCost costData ++
              "; ai_insight: " ++ generateInsight costData),
         [Call.billingStatus targetProject, Call.fetchCostData targetProject])

/-- The `trigger_deployment` case. -/
def triggerDeploymentTool (env : Env) (s : String) (a : Args) :
    Except String String × List Call :=
  match a.service, a.approval with
  | some service, some approval =>
    (match ensureProject a.project s with
     | .error e => (.error e, [])
     | .ok targetProject =>
       match triggerDeployment env service approval targetProject with
       | (.error e, tr) => (.error e, tr)
       | (.ok r, tr) => (.ok (renderDeployment r), tr))
  | _, _ => (.error invalidArgsMsg, [])

/-- The `get_ci_pipeline_status` case. -/
def getCiPipelineStatusTool (env : Env) (s : String) (a : Args) :
    Except String String × List Call :=
  match a.repo with
  | none => (.error invalidArgsMsg, [])
  | some repo =>
    match ensureProject a.project s with
    | .error e => (.error e, [])
    | .ok targetProject =>
      match env.ciStatusR repo targetProject with
      | .error e => (.error e, [Call.listBuilds repo targetProject])
      | .ok status => (.ok (renderCI status), [Call.listBuilds repo targetProject])

/-- The `explore_logs` case. -/
def exploreLogsTool (env : Env) (s : String) (a : Args) :
    Except String String × List Call :=
  match ensureProject a.project s with
  | .error e => (.error e, [])
  | .ok targetProject =>
    match env.fetchLogsR targetProject with
    | .error e => (.error e, [Call.fetchLogs targetProject])
    | .ok logs =>
      (.ok ("project: " ++ targetProject ++ "; count: " ++ toString logs.length ++
            "; logs: " ++ String.intercalate ", " logs),
       [Call.fetchLogs targetProject])

/-- The `manage_resource` case: schema-validate the enums, resolve the
project, then enforce the product constraints on `(resourceType, action)`
before any provider call. -/
def manageResourceTool (env : Env) (s : String) (a : Args) :
    Except String String × List Call :=
  match a.resourceType, a.resourceName, a.action, a.location with
  | some resourceType, some resourceName, some action, some location =>
    if (resourceType = "gce" || resourceType = "run") &&
        (action = "start" || action = "stop" || action = "restart") then
      match ensureProject a.project s with
      | .error e => (.error e, [])
      | .ok targetProject =>
        if resourceType = "gce" then
          if action = "restart" then
            (.error "Restart not directly supported for GCE via this tool. Use stop then start.", [])
          else
            match env.gceR targetProject location resourceName action with
            | .error e =>
              (.error e,
               [if action = "start" then Call.gceStart targetProject location resourceName
                else Call.gceStop targetProject location resourceName])
            | .ok r =>
              (.ok r,
               [if action = "start" then Call.gceStart targetProject location resourceName
                else Call.gceStop targetProject location resourceName])
        else
          if action = "restart" then
            match env.runRestartR targetProject location resourceName with
            | .error e => (.error e, [Call.runRestart targetProject location resourceName])
            | .ok r => (.ok r, [Call.runRestart targetProject location resourceName])
          else
            (.error "Only 'restart' action is supported for Cloud Run services via this tool.", [])
    else (.error invalidArgsMsg, [])
  | _, _, _, _ => (.error invalidArgsMsg, [])

/-- The `audit_security_findings` case (`severity` defaults to HIGH). -/
def auditSecurityFindingsTool (env : Env) (s : String) (a : Args) :
    Except String String × List Call :=
  let severity := a.severity.getD "HIGH"
  match ensureProject a.project s with
  | .error e => (.error e, [])
  | .ok targetProject =>
    match env.findingsR targetProject severity with
    | .error e => (.error e, [Call.listFindings targetProject severity])
    | .ok findings =>
      (.ok ("project: " ++ targetProject ++ "; count: " ++ toString findings.length ++
            "; findings: " ++ String.intercalate ", " findings),
       [Call.listFindings targetProject severity])

/-- The `get_optimization_recommendations` case (`location` defaults to
global). -/
def getOptimizationRecommendationsTool (env : Env) (s : String) (a : Args) :
    Except String String × List Call :=
  let location := a.location.getD "global"
  match ensureProject a.project s with
  | .error e => (.error e, [])
  | .ok targetProject =>
    let recs := getRecommendations env targetProject location
    (.ok ("project: " ++ targetProject ++ "; count: " ++ toString recs.1.length ++
          "; recommendations: " ++
          String.intercalate ", " (recs.1.map renderRecommendation)),
     recs.2)

/-- The `check_quota_status` case. -/
def checkQuotaStatusTool (env : Env) (s : String) (a : Args) :
    Except String String × List Call :=
  match ensureProject a.project s with
  | .error e => (.error e, [])
  | .ok targetProject =>
    match env.quotaR targetProject with
    | .error e => (.error e, [Call.quotaQuery targetProject])
    | .ok quotas =>
      (.ok ("project: " ++ targetProject ++ "; quotas: " ++ quotas),
       [Call.quotaQuery targetProject])

/-- The `generate_architecture_diagram` case. -/
def generateArchitectureDiagramTool (env : Env) (s : String) (a : Args) :
    Except String String × List Call :=
  match ensureProject a.project s with
  | .error e => (.error e, [])
  | .ok targetProject =>
    match env.diagramR targetProject with
    | .error e => (.error e, [Call.diagramDiscovery targetProject])
    | .ok (.message text) => (.ok text, [Call.diagramDiscovery targetProject])
    | .ok (.diagram mermaid explanation) =>
      (.ok ("Architecture Diagram for " ++ targetProject ++ ": " ++ mermaid ++
            " " ++ explanation),
       [Call.diagramDiscovery targetProject])

/-- Pair a stateless tool body with the unchanged session state: every tool
except `set_active_project` leaves the active project as it was. -/
def withS (s : String) (p : Except String String × List Call) :
    Except String String × String × List Call :=
  (p.1, s, p.2)

/-- The stateless part of the dispatcher's `try` block: every tool body
other than `set_active_project`'s (none of them touches the session state),
and the `Unknown tool` default. -/
def toolSwitch (env : Env) (s : String) (name : String) (a : Args) :
    Except String String × List Call :=
  if name = "list_projects" then listProjectsTool env s
  else if name = "test_iam_identity" then testIamIdentityTool env s a
  else if name = "get_service_health" then getServiceHealthTool env s a
  else if name = "get_cloud_cost_breakdown" then getCloudCostBreakdownTool env s a
  else if name = "trigger_deployment" then triggerDeploymentTool env s a
  else if name = "get_ci_pipeline_status" then getCiPipelineStatusTool env s a
  else if name = "explore_logs" then exploreLogsTool env s a
  else if name = "manage_resource" then manageResourceTool env s a
  else if name = "audit_security_findings" then auditSecurityFindingsTool env s a
  else if name = "get_optimization_recommendations" then
    getOptimizationRecommendationsTool env s a
  else if name = "check_quota_status" then checkQuotaStatusTool env s a
  else if name = "generate_architecture_diagram" then
    generateArchitectureDiagramTool env s a
  else (.error ("Unknown tool: " ++ name), [])

/-- The body of the dispatcher's `try` block: the `set_active_project` case
(the only one that writes the session state) and the stateless switch.
Returns the success text or the raised error message, the session state
after the call, and the trace of external calls and state writes.  (The
source tests the special-cased tool names with early `if`s before its
`switch`; as all catalogued names are distinct string literals, testing the
one stateful name first is the same dispatch.) -/
def runTool (env : Env) (s : String) (name : String) (a : Args) :
    Except String String × String × List Call :=
  if name = "set_active_project" then setActiveProjectTool env s a
  else withS s (toolSwitch env s name a)

/-- The result of one handled tool call: the response, the session's
active-project field after the call, and the trace. -/
structure HandleResult where
  response : ToolResponse
  activeProjectId : String
  trace : List Call
deriving Repr, DecidableEq

/-- The request handler: run the tool body and convert a raised message
through the catch block into an ordinary `isError` response, never a
protocol-level fault. -/
def handleToolCall (env : Env) (s : String) (name : String) (a : Args) :
    HandleResult :=
  match runTool env s name a with
  | (.ok text, s2, tr) => ⟨⟨text, false⟩, s2, tr⟩
  | (.error msg, s2, tr) => ⟨catchHandler msg, s2, tr⟩

/-- The names of the Tool Catalog (every tool the dispatcher handles). -/
def toolNames : List String :=
  ["list_projects", "set_active_project", "test_iam_identity",
   "get_service_health", "get_cloud_cost_breakdown", "trigger_deployment",
   "get_ci_pipeline_status", "explore_logs", "manage_resource",
   "audit_security_findings", "get_optimization_recommendations",
   "check_quota_status", "generate_architecture_diagram"]

/-! ## Concrete sample data (used by witnesses and counterexamples) -/

/-- A world in which every external call fails. -/
def env0 : Env where
  listProjectsR := .error "unavailable"
  getIdentityR := .error "unavailable"
  testIamPermissionsR := fun _ => .error "unavailable"
  fetchMetricsR := fun _ _ => .error "unavailable"
  billingStatusR := fun _ => .error "unavailable"
  fetchCostDataR := fun _ => .error "unavailable"
  createBuildR := fun _ _ => .error "unavailable"
  ciStatusR := fun _ _ => .error "unavailable"
  fetchLogsR := fun _ => .error "unavailable"
  gceR := fun _ _ _ _ => .error "unavailable"
  runRestartR := fun _ _ _ => .error "unavailable"
  findingsR := fun _ _ => .error "unavailable"
  listRecommendationsR := fun _ _ _ => .error "unavailable"
  quotaR := fun _ => .error "unavailable"
  diagramR := fun _ => .error "unavailable"

/-- A sample identity for the permission-gate statements. -/
def identDemo : Identity :=
  { email := "dev@example.com", projectId := "demo-proj", authMethod := "UserCredential" }

/-- A world whose identity provider answers with `ident` and whose batched
permission check grants exactly `granted` (all other calls fail). -/
def iamEnv (ident : Identity) (granted : List String) : Env :=
  { env0 with
      getIdentityR := .ok ident
      testIamPermissionsR := fun _ => .ok granted }

/-- The granted set of the specification's permission-gate scenario. -/
def grantedDemo : List String := ["monitoring.timeSeries.list", "bigquery.jobs.create"]

/-- The argument payload of a `trigger_deployment` call with
`approval = false`. -/
def deployReq (service : String) (p : Option String) : Args :=
  { service := some service, approval := some false, project := p }

/-- The argument payload of a `manage_resource` call. -/
def mrArgs (rt rn ac loc : String) (p : Option String) : Args :=
  { resourceType := some rt, resourceName := some rn, action := some ac,
    location := some loc, project := p }

/-- An argument payload that satisfies every tool's schema at once, with the
project override `p` (used to state resolution behaviour uniformly). -/
def fullArgs (p : Option String) : Args :=
  { service := some "payments-api", project := p, approval := some true,
    repo := some "svc-a", projectId := some "demo-proj",
    resourceType := some "gce", resourceName := some "vm-1",
    action := some "start", location := some "us-central1-a",
    query := some "error", limit := some 50, severity := some "ERROR" }

/-- The fixed safety message of the deployment guard. -/
def safetyMsg : String :=
  "Safety check: Production deployment requires explicit approval flag."

/-- The guidance error for `gce`/`restart`. -/
def gceRestartMsg : String :=
  "Restart not directly supported for GCE via this tool. Use stop then start."

/-- The guidance error for `run` with an action other than `restart`. -/
def runRestartOnlyMsg : String :=
  "Only 'restart' action is supported for Cloud Run services via this tool."

/-! ## Helper lemmas -/

/-- The handler's final state is the state `runTool` returns, on the success
and on the error path alike. -/
theorem handle_state_eq (env : Env) (s name : String) (a : Args) :
    (handleToolCall env s name a).activeProjectId = (runTool env s name a).2.1 := by
  rcases h : runTool env s name a with ⟨r, s2, tr⟩
  cases r <;> simp [handleToolCall, h]

/-- The handler's trace is the trace `runTool` returns. -/
theorem handle_trace_eq (env : Env) (s name : String) (a : Args) :
    (handleToolCall env s name a).trace = (runTool env s name a).2.2 := by
  rcases h : runTool env s name a with ⟨r, s2, tr⟩
  cases r <;> simp [handleToolCall, h]

/-- Both branches of the catch block set the error flag. -/
theorem catchHandler_isError (msg : String) : (catchHandler msg).isError = true := by
  unfold catchHandler
  split <;> rfl

/-- The catch block wraps a message verbatim when the credential substring
is not recognised in it. -/
theorem catchHandler_wrap (msg : String) (h : strIncludes msg credsSubstring = false) :
    catchHandler msg = ⟨"Error: " ++ msg, true⟩ := by
  unfold catchHandler
  rw [h]
  simp

/-- Every tool body other than `set_active_project`'s leaves the session
state as it was. -/
theorem runTool_state_of_ne (env : Env) (s name : String) (a : Args)
    (h : name ≠ "set_active_project") : (runTool env s name a).2.1 = s := by
  unfold runTool
  rw [if_neg h]
  rfl

/-- `runTool` on `set_active_project` is the set-active-project case. -/
theorem runTool_set (env : Env) (s : String) (a : Args) :
    runTool env s "set_active_project" a = setActiveProjectTool env s a := rfl

/-- The trace of `verifyPermissions` holds no state write. -/
theorem verifyPermissions_trace_nowrite (env : Env) (pid q : String) :
    Call.writeActiveProject q ∉ (verifyPermissions env pid).2 := by
  rcases hid : env.getIdentityR with e | ident
  · simp [verifyPermissions, hid]
  · by_cases ht : (if pid = "" then ident.projectId else pid) = ""
    · simp [verifyPermissions, hid, ht]
    · rcases hg : env.testIamPermissionsR (if pid = "" then ident.projectId else pid) with
          e | granted
      · simp [verifyPermissions, hid, ht, hg]
      · simp [verifyPermissions, hid, ht, hg]

/-- A succeeding `verifyPermissions` made a batched permission check: its
trace is the identity lookup followed by one `testIamPermissions` call. -/
theorem verifyPermissions_trace_ok (env : Env) (pid : String) (rep : PermissionReport)
    (h : (verifyPermissions env pid).1 = .ok rep) :
    ∃ tp, (verifyPermissions env pid).2 = [Call.getIdentity, Call.testIamPermissions tp] := by
  rcases hid : env.getIdentityR with e | ident
  · simp [verifyPermissions, hid] at h
  · by_cases ht : (if pid = "" then ident.projectId else pid) = ""
    · simp [verifyPermissions, hid, ht] at h
    · rcases hg : env.testIamPermissionsR (if pid = "" then ident.projectId else pid) with
          e | granted
      · simp [verifyPermissions, hid, ht, hg] at h
      · refine ⟨if pid = "" then ident.projectId else pid, ?_⟩
        simp [verifyPermissions, hid, ht, hg]

/-- The loop of `getRecommendations`, over any recommender list: the result
is the concatenation of the per-recommender results with failing
recommenders contributing nothing, and every recommender is consulted. -/
theorem recsLoop_spec (env : Env) (p l : String) (rs : List String) :
    (recsLoop env p l rs).1 = (rs.map (fun rid =>
        match env.listRecommendationsR p l rid with
        | .error _ => []
        | .ok recs => recs.map (mapRec rid))).flatten ∧
    (recsLoop env p l rs).2 = rs.map (fun rid => Call.listRecommendations p l rid) := by
  induction rs with
  | nil => exact ⟨rfl, rfl⟩
  | cons rid rest ih =>
    rcases hg : env.listRecommendationsR p l rid with e | recs
    · simp [recsLoop, hg, ih.1, ih.2]
    · cases recs with
      | nil => simp [recsLoop, hg, ih.1, ih.2]
      | cons r rrest => simp [recsLoop, hg, ih.1, ih.2]

/-! ## The claims -/

/-- C10: for every `HealthMetrics` input (any rational `cpuUsage`,
`errorRate`, `latencyP95`, `podHealth`), `computeHealthScore` returns an
integer clamped to the closed interval [0, 100]; likewise for the MQL-based
revision of the scorer.  The deductions can never drive the reported score
below 0 or above 100. -/
theorem health_score_clamped (m : HealthMetrics) :
    0 ≤ computeHealthScore m ∧ computeHealthScore m ≤ 100 ∧
    0 ≤ computeHealthScoreV2 m ∧ computeHealthScoreV2 m ≤ 100 := by
  unfold computeHealthScore computeHealthScoreV2
  refine ⟨le_max_left _ _, max_le (by norm_num) (min_le_left _ _),
    le_max_left _ _, max_le (by norm_num) (min_le_left _ _)⟩

/-- C8: `get_optimization_recommendations` swallows the failure of any
single recommender category — a failing category contributes no results
while iteration continues through every remaining category (the trace
consults each of the four recommenders regardless of failures) — and the
operation, a total function, returns the concatenation of the results of
the succeeding categories. -/
theorem optimization_recommendations_resilient (env : Env) (projectId location : String) :
    (getRecommendations env projectId location).1
        = (RECOMMENDERS.map (fun rid =>
            match env.listRecommendationsR projectId location rid with
            | .error _ => []
            | .ok recs => recs.map (mapRec rid))).flatten ∧
    (getRecommendations env projectId location).2
        = RECOMMENDERS.map (fun rid => Call.listRecommendations projectId location rid) :=
  recsLoop_spec env projectId location RECOMMENDERS

/-- C7: every raised message is classified by the dispatcher's catch block:
a message containing the recognised default-credentials substring yields
`isError=true` with the fixed re-authentication instruction; every other
message is wrapped verbatim as `Error: {message}` with `isError=true`; and
whenever the tool body raises, the handler's response is exactly the catch
block's classification of the raised message. -/
theorem error_classification (msg : String) (env : Env) (s name : String) (a : Args) :
    (strIncludes msg credsSubstring = true → catchHandler msg = ⟨authFailText, true⟩) ∧
    (strIncludes msg credsSubstring = false → catchHandler msg = ⟨"Error: " ++ msg, true⟩) ∧
    (∀ s2 tr, runTool env s name a = (.error msg, s2, tr) →
       (handleToolCall env s name a).response = catchHandler msg) ∧
    (catchHandler msg).isError = true := by
  refine ⟨fun h => ?_, fun h => catchHandler_wrap msg h, fun s2 tr h => ?_,
    catchHandler_isError msg⟩
  · unfold catchHandler
    rw [h]
    simp
  · simp [handleToolCall, h]

/-- C4: for every granted set `G` the Permission Gate reports a capability
`true` iff every permission string of its required group is a member of `G`
(AND semantics), and `missingPermissions` is the filter of the
declaration-ordered union of the four groups down to the permissions not in
`G` (equivalently: its members are exactly the required permissions outside
`G`, in declaration order). -/
theorem permission_gate_and_semantics (G : List String) (ident : Identity) (pid : String)
    (h : pid ≠ "") :
    ∃ rep, (verifyPermissions (iamEnv ident G) pid).1 = .ok rep ∧
      (rep.capabilities.health = true ↔ ∀ q ∈ REQUIRED_health, q ∈ G) ∧
      (rep.capabilities.cost = true ↔ ∀ q ∈ REQUIRED_cost, q ∈ G) ∧
      (rep.capabilities.deployment = true ↔ ∀ q ∈ REQUIRED_deployment, q ∈ G) ∧
      (rep.capabilities.billing = true ↔ ∀ q ∈ REQUIRED_billing, q ∈ G) ∧
      rep.missingPermissions = allPermissions.filter (fun q => !G.contains q) ∧
      (∀ q, q ∈ rep.missingPermissions ↔ q ∈ allPermissions ∧ q ∉ G) := by
  have hrun : (verifyPermissions (iamEnv ident G) pid).1 = .ok
      { identity := ident.email
        projectId := pid
        capabilities :=
          { health := REQUIRED_health.all (fun p => G.contains p)
            cost := REQUIRED_cost.all (fun p => G.contains p)
            deployment := REQUIRED_deployment.all (fun p => G.contains p)
            billing := REQUIRED_billing.all (fun p => G.contains p) }
        missingPermissions := allPermissions.filter (fun p => !G.contains p) } := by
    simp [verifyPermissions, iamEnv, env0, h]
  refine ⟨_, hrun, ?_, ?_, ?_, ?_, rfl, fun q => ?_⟩ <;>
    simp [List.all_eq_true, List.elem_iff, List.mem_filter]

/-- Witness for C4 at the specification's scenario: granted set
{monitoring.timeSeries.list, bigquery.jobs.create} against project
demo-proj. -/
theorem permission_gate_and_semantics_witness :
    ∃ rep, (verifyPermissions (iamEnv identDemo grantedDemo) "demo-proj").1 = .ok rep := by
  obtain ⟨rep, hrep, _⟩ :=
    permission_gate_and_semantics grantedDemo identDemo "demo-proj" (by decide)
  exact ⟨rep, hrep⟩

/-- C9: frame property of the session state.  For every handled tool call,
a tool other than `set_active_project` leaves the active project unchanged;
every failing call (response `isError=true`) leaves it unchanged; and hence
a change of the active project can only come from a successful
`set_active_project`. -/
theorem session_frame (env : Env) (s name : String) (a : Args) :
    (name ≠ "set_active_project" → (handleToolCall env s name a).activeProjectId = s) ∧
    ((handleToolCall env s name a).response.isError = true →
       (handleToolCall env s name a).activeProjectId = s) ∧
    ((handleToolCall env s name a).activeProjectId ≠ s →
       name = "set_active_project" ∧
       (handleToolCall env s name a).response.isError = false) := by
  have h1 : ∀ _ : name ≠ "set_active_project",
      (handleToolCall env s name a).activeProjectId = s := fun hne =>
    (handle_state_eq env s name a).trans (runTool_state_of_ne env s name a hne)
  have h2 : (handleToolCall env s name a).response.isError = true →
      (handleToolCall env s name a).activeProjectId = s := by
    intro he
    by_cases hn : name = "set_active_project"
    · subst hn
      rcases hp : a.projectId with _ | pid
      · rw [handle_state_eq, runTool_set]
        simp [setActiveProjectTool, hp]
      · rcases hv : verifyPermissions env pid with ⟨vr, tr⟩
        cases vr with
        | error e =>
          rw [handle_state_eq, runTool_set]
          simp [setActiveProjectTool, hp, hv]
        | ok rep =>
          exfalso
          have hf : (handleToolCall env s "set_active_project" a).response.isError = false := by
            simp [handleToolCall, runTool_set, setActiveProjectTool, hp, hv]
          rw [hf] at he
          exact Bool.false_ne_true he
    · exact h1 hn
  refine ⟨h1, h2, fun hne2 => ?_⟩
  by_cases hn : name = "set_active_project"
  · refine ⟨hn, ?_⟩
    by_cases he : (handleToolCall env s name a).response.isError = true
    · exact absurd (h2 he) hne2
    · simpa using he
  · exact absurd (h1 hn) hne2

/-- C3: project resolution.  An explicit non-empty project argument wins
regardless of session state; otherwise a non-empty session active project
is used; otherwise resolution fails with the missing-project message that
instructs the caller to run `list_projects` and `set_active_project`.
Resolution never mutates the session state (no tool call other than
`set_active_project` changes it), and a tool call that fails to resolve a
project answers with the remediation message as an ordinary `isError`
response (shown on the `get_service_health` dispatch). -/
theorem project_resolution (p : Option String) (s : String) :
    (∀ v, p = some v → v ≠ "" → ensureProject p s = .ok v) ∧
    ((p = none ∨ p = some "") → s ≠ "" → ensureProject p s = .ok s) ∧
    ((p = none ∨ p = some "") → s = "" → ensureProject p s = .error noProjectMsg) ∧
    (∀ env name a, name ≠ "set_active_project" →
       (handleToolCall env s name a).activeProjectId = s) ∧
    (∀ env service, ensureProject p s = .error noProjectMsg →
       (handleToolCall env s "get_service_health"
           { service := some service, project := p }).response
         = ⟨"Error: " ++ noProjectMsg, true⟩) := by
  refine ⟨?_, ?_, ?_, ?_, ?_⟩
  · intro v hv hne
    subst hv
    simp [ensureProject, hne]
  · rintro (hp | hp) hs <;> subst hp <;> simp [ensureProject, hs]
  · rintro (hp | hp) hs <;> subst hp <;> subst hs <;> simp [ensureProject, noProjectMsg]
  · intro env name a hne
    exact (handle_state_eq env s name a).trans (runTool_state_of_ne env s name a hne)
  · intro env service h
    have hrun : runTool env s "get_service_health" { service := some service, project := p }
        = (.error noProjectMsg, s, []) := by
      simp [runTool, withS, toolSwitch, getServiceHealthTool, h]
    rw [show (handleToolCall env s "get_service_health"
          { service := some service, project := p }).response
        = catchHandler noProjectMsg by simp [handleToolCall, hrun]]
    exact catchHandler_wrap noProjectMsg (by decide)

/-- C1: for every `set_active_project` call, any write of the session's
active project is preceded in the trace by the permission-verification call
(and only happens when verification returned a report); and whenever
verification fails for the requested project, the active project after the
call equals its value before the call and the failure is reported with
`isError=true` — the selection is rejected, never silently applied. -/
theorem set_active_project_gated (env : Env) (s : String) (a : Args) :
    (∀ pid, Call.writeActiveProject pid ∈
        (handleToolCall env s "set_active_project" a).trace →
      a.projectId = some pid ∧
      (∃ pre post, (handleToolCall env s "set_active_project" a).trace
          = pre ++ Call.writeActiveProject pid :: post ∧
        (∃ tp, Call.testIamPermissions tp ∈ pre)) ∧
      (∃ rep, (verifyPermissions env pid).1 = .ok rep)) ∧
    (∀ pid e, a.projectId = some pid → (verifyPermissions env pid).1 = .error e →
      (handleToolCall env s "set_active_project" a).activeProjectId = s ∧
      (handleToolCall env s "set_active_project" a).response.isError = true ∧
      (∀ q, Call.writeActiveProject q ∉
          (handleToolCall env s "set_active_project" a).trace)) := by
  constructor
  · intro pid hmem
    rw [handle_trace_eq, runTool_set] at hmem
    rcases hp : a.projectId with _ | pid0
    · simp [setActiveProjectTool, hp] at hmem
    · rcases hv : verifyPermissions env pid0 with ⟨vr, tr⟩
      cases vr with
      | error e =>
        rw [show setActiveProjectTool env s a = (.error e, s, tr) by
              simp [setActiveProjectTool, hp, hv]] at hmem
        have : Call.writeActiveProject pid ∈ (verifyPermissions env pid0).2 := by
          rw [hv]; exact hmem
        exact absurd this (verifyPermissions_trace_nowrite env pid0 pid)
      | ok rep =>
        have hset : setActiveProjectTool env s a
            = (.ok ("Project context successfully set to: " ++ pid0), pid0,
               tr ++ [Call.writeActiveProject pid0]) := by
          simp [setActiveProjectTool, hp, hv]
        rw [hset] at hmem
        simp only [List.mem_append, List.mem_singleton] at hmem
        have hnw : Call.writeActiveProject pid ∉ tr := by
          have h2 := verifyPermissions_trace_nowrite env pid0 pid
          rw [hv] at h2
          exact h2
        have hpid : pid = pid0 := by
          rcases hmem with hin | heq
          · exact absurd hin hnw
          · injection heq
        subst hpid
        have htr : ∃ tp, tr = [Call.getIdentity, Call.testIamPermissions tp] := by
          have h3 := verifyPermissions_trace_ok env pid rep (by rw [hv])
          rw [hv] at h3
          exact h3
        obtain ⟨tp, htp⟩ := htr
        refine ⟨hp.symm ▸ rfl, ⟨tr, [], ?_, ⟨tp, by rw [htp]; simp⟩⟩, ⟨rep, by rw [hv]⟩⟩
        rw [handle_trace_eq, runTool_set, hset]
  · intro pid e hp hv
    have hvp : verifyPermissions env pid = (.error e, (verifyPermissions env pid).2) := by
      rcases hq : verifyPermissions env pid with ⟨vr, tr⟩
      rw [hq] at hv
      simp at hv
      simp [hv]
    refine ⟨?_, ?_, fun q hq => ?_⟩
    · rw [handle_state_eq, runTool_set]
      rw [show setActiveProjectTool env s a = (.error e, s, (verifyPermissions env pid).2) by
            simp [setActiveProjectTool, hp]
            rw [hvp]]
    · rw [show (handleToolCall env s "set_active_project" a).response = catchHandler e by
            simp [handleToolCall, runTool_set]
            rw [show setActiveProjectTool env s a
                  = (.error e, s, (verifyPermissions env pid).2) by
                simp [setActiveProjectTool, hp]
                rw [hvp]]]
      exact catchHandler_isError e
    · rw [handle_trace_eq, runTool_set] at hq
      rw [show setActiveProjectTool env s a = (.error e, s, (verifyPermissions env pid).2) by
            simp [setActiveProjectTool, hp]
            rw [hvp]] at hq
      exact absurd hq (verifyPermissions_trace_nowrite env pid q)

/-- C2 (amended): a `trigger_deployment` call with `approval=false` never
invokes the build-creation provider operation (its trace is empty) and
always answers `isError=true`; whenever a target project resolves the text
is the fixed safety message, and when no project resolves the raised
missing-project message is classified by the catch block instead. -/
theorem trigger_deployment_guard (env : Env) (s service : String) (p : Option String) :
    (handleToolCall env s "trigger_deployment" (deployReq service p)).trace = [] ∧
    (∀ sv pj, Call.createBuild sv pj ∉
        (handleToolCall env s "trigger_deployment" (deployReq service p)).trace) ∧
    (handleToolCall env s "trigger_deployment" (deployReq service p)).response.isError
        = true ∧
    (∀ t, ensureProject p s = .ok t →
       (handleToolCall env s "trigger_deployment" (deployReq service p)).response
         = ⟨"Error: " ++ safetyMsg, true⟩) ∧
    (∀ e, ensureProject p s = .error e →
       (handleToolCall env s "trigger_deployment" (deployReq service p)).response
         = catchHandler e) := by
  rcases hE : ensureProject p s with e | t
  · have hrun : runTool env s "trigger_deployment" (deployReq service p)
        = (.error e, s, []) := by
      simp [runTool, withS, toolSwitch, triggerDeploymentTool, deployReq, hE]
    have hresp : (handleToolCall env s "trigger_deployment" (deployReq service p)).response
        = catchHandler e := by
      simp [handleToolCall, hrun]
    refine ⟨?_, ?_, ?_, ?_, ?_⟩
    · rw [handle_trace_eq, hrun]
    · intro sv pj
      rw [handle_trace_eq, hrun]
      simp
    · rw [hresp]
      exact catchHandler_isError e
    · intro t ht
      cases ht
    · intro e2 he2
      injection he2 with he3
      rw [hresp, he3]
  · have hrun : runTool env s "trigger_deployment" (deployReq service p)
        = (.error safetyMsg, s, []) := by
      simp [runTool, withS, toolSwitch, triggerDeploymentTool, deployReq, hE,
        triggerDeployment, safetyMsg]
    have hresp : (handleToolCall env s "trigger_deployment" (deployReq service p)).response
        = catchHandler safetyMsg := by
      simp [handleToolCall, hrun]
    refine ⟨?_, ?_, ?_, ?_, ?_⟩
    · rw [handle_trace_eq, hrun]
    · intro sv pj
      rw [handle_trace_eq, hrun]
      simp
    · rw [hresp]
      exact catchHandler_isError safetyMsg
    · intro t2 ht2
      rw [hresp]
      exact catchHandler_wrap safetyMsg (by decide)
    · intro e2 he2
      cases he2

/-- C2 counterexample: with `approval=false`, an absent explicit project
and an empty session active project, the response is the missing-project
remediation, not the fixed safety message (the claim asserts the safety
message for any service/project value); the build-creation operation is
still never invoked. -/
theorem trigger_deployment_guard_cex :
    (handleToolCall env0 "" "trigger_deployment" (deployReq "svc" none)).response.text
        = "Error: " ++ noProjectMsg ∧
    (handleToolCall env0 "" "trigger_deployment" (deployReq "svc" none)).response.text
        ≠ "Error: " ++ safetyMsg ∧
    (handleToolCall env0 "" "trigger_deployment" (deployReq "svc" none)).trace = [] := by
  decide

/-- C5 (amended): `manage_resource` rejects `gce`/`restart` with the
stop-then-start guidance and `run`/`start`, `run`/`stop` with the
restart-only guidance whenever a target project resolves, and in every case
(also when no project resolves) the provider is never invoked — the trace
of each such call is empty. -/
theorem manage_resource_constraints (env : Env) (s rn loc : String) (p : Option String) :
    (handleToolCall env s "manage_resource" (mrArgs "gce" rn "restart" loc p)).trace
        = [] ∧
    (handleToolCall env s "manage_resource"
        (mrArgs "gce" rn "restart" loc p)).response.isError = true ∧
    (∀ t, ensureProject p s = .ok t →
       (handleToolCall env s "manage_resource" (mrArgs "gce" rn "restart" loc p)).response
         = ⟨"Error: " ++ gceRestartMsg, true⟩) ∧
    (handleToolCall env s "manage_resource" (mrArgs "run" rn "start" loc p)).trace
        = [] ∧
    (handleToolCall env s "manage_resource"
        (mrArgs "run" rn "start" loc p)).response.isError = true ∧
    (∀ t, ensureProject p s = .ok t →
       (handleToolCall env s "manage_resource" (mrArgs "run" rn "start" loc p)).response
         = ⟨"Error: " ++ runRestartOnlyMsg, true⟩) ∧
    (handleToolCall env s "manage_resource" (mrArgs "run" rn "stop" loc p)).trace
        = [] ∧
    (handleToolCall env s "manage_resource"
        (mrArgs "run" rn "stop" loc p)).response.isError = true ∧
    (∀ t, ensureProject p s = .ok t →
       (handleToolCall env s "manage_resource" (mrArgs "run" rn "stop" loc p)).response
         = ⟨"Error: " ++ runRestartOnlyMsg, true⟩) := by
  rcases hE : ensureProject p s with e | t
  · have hg : runTool env s "manage_resource" (mrArgs "gce" rn "restart" loc p)
        = (.error e, s, []) := by
      simp [runTool, withS, toolSwitch, manageResourceTool, mrArgs, hE]
    have h1 : runTool env s "manage_resource" (mrArgs "run" rn "start" loc p)
        = (.error e, s, []) := by
      simp [runTool, withS, toolSwitch, manageResourceTool, mrArgs, hE]
    have h2 : runTool env s "manage_resource" (mrArgs "run" rn "stop" loc p)
        = (.error e, s, []) := by
      simp [runTool, withS, toolSwitch, manageResourceTool, mrArgs, hE]
    refine ⟨?_, ?_, ?_, ?_, ?_, ?_, ?_, ?_, ?_⟩
    · rw [handle_trace_eq, hg]
    · rw [show (handleToolCall env s "manage_resource"
            (mrArgs "gce" rn "restart" loc p)).response = catchHandler e by
          simp [handleToolCall, hg]]
      exact catchHandler_isError e
    · intro t ht
      cases ht
    · rw [handle_trace_eq, h1]
    · rw [show (handleToolCall env s "manage_resource"
            (mrArgs "run" rn "start" loc p)).response = catchHandler e by
          simp [handleToolCall, h1]]
      exact catchHandler_isError e
    · intro t ht
      cases ht
    · rw [handle_trace_eq, h2]
    · rw [show (handleToolCall env s "manage_resource"
            (mrArgs "run" rn "stop" loc p)).response = catchHandler e by
          simp [handleToolCall, h2]]
      exact catchHandler_isError e
    · intro t ht
      cases ht
  · have hg : runTool env s "manage_resource" (mrArgs "gce" rn "restart" loc p)
        = (.error gceRestartMsg, s, []) := by
      simp [runTool, withS, toolSwitch, manageResourceTool, mrArgs, hE, gceRestartMsg]
    have h1 : runTool env s "manage_resource" (mrArgs "run" rn "start" loc p)
        = (.error runRestartOnlyMsg, s, []) := by
      simp [runTool, withS, toolSwitch, manageResourceTool, mrArgs, hE, runRestartOnlyMsg]
    have h2 : runTool env s "manage_resource" (mrArgs "run" rn "stop" loc p)
        = (.error runRestartOnlyMsg, s, []) := by
      simp [runTool, withS, toolSwitch, manageResourceTool, mrArgs, hE, runRestartOnlyMsg]
    refine ⟨?_, ?_, ?_, ?_, ?_, ?_, ?_, ?_, ?_⟩
    · rw [handle_trace_eq, hg]
    · rw [show (handleToolCall env s "manage_resource"
            (mrArgs "gce" rn "restart" loc p)).response = catchHandler gceRestartMsg by
          simp [handleToolCall, hg]]
      exact catchHandler_isError gceRestartMsg
    · intro t2 ht2
      rw [show (handleToolCall env s "manage_resource"
            (mrArgs "gce" rn "restart" loc p)).response = catchHandler gceRestartMsg by
          simp [handleToolCall, hg]]
      exact catchHandler_wrap gceRestartMsg (by decide)
    · rw [handle_trace_eq, h1]
    · rw [show (handleToolCall env s "manage_resource"
            (mrArgs "run" rn "start" loc p)).response = catchHandler runRestartOnlyMsg by
          simp [handleToolCall, h1]]
      exact catchHandler_isError runRestartOnlyMsg
    · intro t2 ht2
      rw [show (handleToolCall env s "manage_resource"
            (mrArgs "run" rn "start" loc p)).response = catchHandler runRestartOnlyMsg by
          simp [handleToolCall, h1]]
      exact catchHandler_wrap runRestartOnlyMsg (by decide)
    · rw [handle_trace_eq, h2]
    · rw [show (handleToolCall env s "manage_resource"
            (mrArgs "run" rn "stop" loc p)).response = catchHandler runRestartOnlyMsg by
          simp [handleToolCall, h2]]
      exact catchHandler_isError runRestartOnlyMsg
    · intro t2 ht2
      rw [show (handleToolCall env s "manage_resource"
            (mrArgs "run" rn "stop" loc p)).response = catchHandler runRestartOnlyMsg by
          simp [handleToolCall, h2]]
      exact catchHandler_wrap runRestartOnlyMsg (by decide)

/-- C5 counterexample: a `gce`/`restart` call with no explicit project and
an empty session is rejected with the missing-project remediation, not the
stop-then-start guidance the claim asserts for every `manage_resource`
call (the provider is still never invoked). -/
theorem manage_resource_constraints_cex :
    (handleToolCall env0 "" "manage_resource"
        (mrArgs "gce" "vm-1" "restart" "us-central1-a" none)).response.text
      = "Error: " ++ noProjectMsg ∧
    (handleToolCall env0 "" "manage_resource"
        (mrArgs "gce" "vm-1" "restart" "us-central1-a" none)).response.text
      ≠ "Error: " ++ gceRestartMsg ∧
    (handleToolCall env0 "" "manage_resource"
        (mrArgs "gce" "vm-1" "restart" "us-central1-a" none)).trace = [] := by
  decide

/-- C6 (amended): a call whose tool name is not in the catalog is answered
with an ordinary response — never a protocol-level fault — whose text is
the catch block's classification of the message `Unknown tool: {name}`,
which is `Error: Unknown tool: {name}` whenever the unknown name does not
itself contain the credential-sniffing substring; the response has
`isError=true`, the session's active project is unchanged, and no provider
is invoked. -/
theorem unknown_tool_response (env : Env) (s name : String) (a : Args)
    (h : name ∉ toolNames) :
    (handleToolCall env s name a).response = catchHandler ("Unknown tool: " ++ name) ∧
    (strIncludes ("Unknown tool: " ++ name) credsSubstring = false →
       (handleToolCall env s name a).response
         = ⟨"Error: " ++ ("Unknown tool: " ++ name), true⟩) ∧
    (handleToolCall env s name a).response.isError = true ∧
    (handleToolCall env s name a).activeProjectId = s ∧
    (handleToolCall env s name a).trace = [] := by
  simp only [toolNames, List.mem_cons, List.not_mem_nil, or_false, not_or] at h
  obtain ⟨h1, h2, h3, h4, h5, h6, h7, h8, h9, h10, h11, h12, h13⟩ := h
  have hrun : runTool env s name a = (.error ("Unknown tool: " ++ name), s, []) := by
    simp [runTool, withS, toolSwitch, h1, h2, h3, h4, h5, h6, h7, h8, h9, h10,
      h11, h12, h13]
  have hresp : (handleToolCall env s name a).response
      = catchHandler ("Unknown tool: " ++ name) := by
    simp [handleToolCall, hrun]
  refine ⟨hresp, fun hnc => ?_, ?_, ?_, ?_⟩
  · rw [hresp]
    exact catchHandler_wrap _ hnc
  · rw [hresp]
    exact catchHandler_isError _
  · rw [handle_state_eq, hrun]
  · rw [handle_trace_eq, hrun]

/-- Witness for C6 at the unknown name `frobnicate`. -/
theorem unknown_tool_response_witness :
    (handleToolCall env0 "demo" "frobnicate" {}).response.isError = true :=
  (unknown_tool_response env0 "demo" "frobnicate" {} (by decide)).2.2.1

/-- C6 counterexample: for the unknown name `frobnicate`, the response text
carries the dispatcher's `Error: ` prefix, so it is not the bare string
`Unknown tool: frobnicate` the claim asserts (the session state is
unchanged, as claimed). -/
theorem unknown_tool_cex :
    (handleToolCall env0 "demo" "frobnicate" {}).response.isError = true ∧
    (handleToolCall env0 "demo" "frobnicate" {}).response.text
        = "Error: Unknown tool: frobnicate" ∧
    (handleToolCall env0 "demo" "frobnicate" {}).response.text
        ≠ "Unknown tool: frobnicate" ∧
    (handleToolCall env0 "demo" "frobnicate" {}).activeProjectId = "demo" := by
  decide

end GcpMcp
